import Mathlib

/-!
Shallow embedding of the budget tracker (src/budget1.cpp).

The C program keeps one `BudgetTracker` aggregate with fixed-capacity arrays
and explicit counts; the logical state (the first `count` entries of each
array) is embedded as Lean lists.  C `float` amounts are modelled as exact
rationals (ℚ); the spec disclaims rounding-precision guarantees, so the
claims are settled at the level of exact arithmetic.  `time(NULL)` stamps are
passed in as an explicit `now : Nat` parameter.  Console I/O (prompts,
`scanf`, `printf`) is external to the core: inputs arrive as parameters and
the printed warnings/errors are modelled as returned signals.
-/

namespace Budget

def MAX_TRANSACTIONS : Nat := 1000
def MAX_CATEGORIES : Nat := 50
def MAX_NOTIFICATIONS : Nat := 50

/-- `Notification` struct: `message`, `timestamp`, `is_read`. -/
structure Notification where
  message : String
  timestamp : Nat
  is_read : Bool
deriving Repr, DecidableEq

/-- `Category` struct: `name`, `budget_limit`, `current_spent`. -/
structure Category where
  name : String
  budget_limit : ℚ
  current_spent : ℚ
deriving Repr, DecidableEq

/-- `Transaction` struct: `amount`, `description`, `category`, `timestamp`,
`is_income`. -/
structure Transaction where
  amount : ℚ
  description : String
  category : String
  timestamp : Nat
  is_income : Bool
deriving Repr, DecidableEq

/-- `BudgetTracker` aggregate.  The C arrays with their counts become lists;
`transaction_count` etc. are the list lengths. -/
structure BudgetTracker where
  transactions : List Transaction
  categories : List Category
  notifications : List Notification
  total_income : ℚ
  total_expenses : ℚ
deriving Repr, DecidableEq

/-- The error signals the operations print (`Transaction limit reached!`,
`Invalid category. Expense not recorded.`). -/
inductive RecordError where
  | CapacityExceeded
  | InvalidCategory
deriving Repr, DecidableEq

/-- Default category names seeded by `init_tracker`, in source order. -/
def default_categories : List String :=
  ["Salary", "Freelance", "Investments",
   "Food", "Transport", "Utilities", "Rent", "Entertainment"]

/-- `init_tracker`: zeroes the counters and totals, seeds the eight default
categories with zero limit and zero spent, and stores the single
initialization message.  (The C code writes only the message bytes of that
first notification; its `timestamp`/`is_read` fields are left as they were,
modelled here as `0`/`false`.) -/
def init_tracker : BudgetTracker :=
  { transactions := []
    categories := default_categories.map (fun n => ⟨n, 0, 0⟩)
    notifications := [⟨"Tracker initialized with default categories.", 0, false⟩]
    total_income := 0
    total_expenses := 0 }

/-- `add_income`: refuses when `transaction_count >= MAX_TRANSACTIONS`
(before reading any input), otherwise appends an income transaction with
`category = "Income"`, `is_income = 1`, and adds the amount to
`total_income`. -/
def add_income (tracker : BudgetTracker) (amount : ℚ) (description : String)
    (now : Nat) : BudgetTracker × Option RecordError :=
  if tracker.transactions.length ≥ MAX_TRANSACTIONS then
    (tracker, some RecordError.CapacityExceeded)
  else
    ({ tracker with
        transactions := tracker.transactions ++
          [⟨amount, description, "Income", now, true⟩]
        total_income := tracker.total_income + amount },
     none)

/-- `add_expense`: refuses when the transaction array is full (before reading
any input); rejects a `category_choice` outside `1 .. category_count` with no
mutation; otherwise copies the chosen category's name into the transaction,
adds the amount to that category's `current_spent` and to `total_expenses`,
appends the transaction with `is_income = 0`, and reports whether the
over-budget warning fired (`budget_limit > 0` and the updated
`current_spent` exceeds it). -/
def add_expense (tracker : BudgetTracker) (amount : ℚ) (category_choice : Int)
    (description : String) (now : Nat) :
    BudgetTracker × Except RecordError Bool :=
  if tracker.transactions.length ≥ MAX_TRANSACTIONS then
    (tracker, Except.error RecordError.CapacityExceeded)
  else if category_choice < 1 ∨ category_choice > (tracker.categories.length : Int) then
    (tracker, Except.error RecordError.InvalidCategory)
  else
    let idx : Nat := (category_choice - 1).toNat
    let cat := tracker.categories.getD idx ⟨"", 0, 0⟩
    let newCat : Category := { cat with current_spent := cat.current_spent + amount }
    let exceeded : Bool :=
      decide (newCat.budget_limit > 0 ∧ newCat.current_spent > newCat.budget_limit)
    ({ tracker with
        transactions := tracker.transactions ++
          [⟨amount, description, cat.name, now, false⟩]
        categories := tracker.categories.set idx newCat
        total_expenses := tracker.total_expenses + amount },
     Except.ok exceeded)

/-- Overwrite the `budget_limit` of each category in order with the
corresponding supplied value; categories beyond the supplied values keep
their limit (the C loop reads exactly one value per category, so the lists
match in length on every actual run). -/
def setLimits : List Category → List ℚ → List Category
  | [], _ => []
  | c :: cs, [] => c :: cs
  | c :: cs, l :: ls => { c with budget_limit := l } :: setLimits cs ls

/-- `set_budget`: walks the categories in stored order, overwriting each
`budget_limit` with the caller-supplied replacement (the C loop reads one
float per category; no validation is performed on the value). -/
def set_budget (tracker : BudgetTracker) (newLimits : List ℚ) : BudgetTracker :=
  { tracker with categories := setLimits tracker.categories newLimits }

/-- `add_notification`: when the log holds `MAX_NOTIFICATIONS` entries, the
C code shifts every entry down by one (evicting index 0) and decrements the
count before appending; the appended entry gets at most 99 message
characters (`strncpy`), the current time, and `is_read = 0`. -/
def add_notification (tracker : BudgetTracker) (message : String) (now : Nat) :
    BudgetTracker :=
  let base :=
    if tracker.notifications.length ≥ MAX_NOTIFICATIONS then
      tracker.notifications.drop 1
    else
      tracker.notifications
  { tracker with notifications := base ++ [⟨message.take 99, now, false⟩] }

/-- One public mutating call, with the inputs the menu loop would feed it. -/
inductive Op where
  | income (amount : ℚ) (description : String) (now : Nat)
  | expense (amount : ℚ) (category_choice : Int) (description : String) (now : Nat)
  | setBudget (newLimits : List ℚ)
  | notify (message : String) (now : Nat)
deriving Repr

/-- Apply one operation to the tracker state, discarding the signal. -/
def applyOp (tracker : BudgetTracker) : Op → BudgetTracker
  | Op.income a d n => (add_income tracker a d n).1
  | Op.expense a c d n => (add_expense tracker a c d n).1
  | Op.setBudget ls => set_budget tracker ls
  | Op.notify m n => add_notification tracker m n

/-- The state after running a sequence of operations from a freshly
initialized tracker. -/
def run (ops : List Op) : BudgetTracker :=
  ops.foldl applyOp init_tracker

/-- Sum of the amounts of the income transactions in a list. -/
def incomeSum (ts : List Transaction) : ℚ :=
  ((ts.filter (fun t => t.is_income)).map (fun t => t.amount)).sum

/-- Sum of the amounts of the expense transactions in a list. -/
def expenseSum (ts : List Transaction) : ℚ :=
  ((ts.filter (fun t => !t.is_income)).map (fun t => t.amount)).sum

/-- Sum of `current_spent` over a list of categories. -/
def spentSum (cs : List Category) : ℚ :=
  (cs.map (fun c => c.current_spent)).sum

/-- An operation is an income or expense recording (the calls quantified
over by the totals invariant). -/
def Op.isRecord : Op → Prop
  | Op.income _ _ _ => True
  | Op.expense _ _ _ _ => True
  | Op.setBudget _ => False
  | Op.notify _ _ => False

/-- Valid inputs in the sense of the data model: expense amounts are
nonnegative and supplied budget limits are nonnegative. -/
def Op.validInputs : Op → Prop
  | Op.income _ _ _ => True
  | Op.expense a _ _ _ => 0 ≤ a
  | Op.setBudget ls => ∀ l ∈ ls, 0 ≤ l
  | Op.notify _ _ => True

/-- The out-of-range default used when reading a category slot; never hit on
the in-range accesses the program performs. -/
def padCategory : Category := ⟨"", 0, 0⟩

/-- The totals bookkeeping invariant of the ledger (spec §3). -/
def TotalsInv (s : BudgetTracker) : Prop :=
  s.total_income = incomeSum s.transactions ∧
  s.total_expenses = expenseSum s.transactions ∧
  spentSum s.categories = s.total_expenses

/-- Per-category nonnegativity invariant of the ledger (spec §3). -/
def NonnegInv (s : BudgetTracker) : Prop :=
  ∀ c ∈ s.categories, 0 ≤ c.current_spent ∧ 0 ≤ c.budget_limit

/-- A ledger whose transaction store is full: 1000 recorded transactions. -/
def fullTracker : BudgetTracker :=
  { init_tracker with transactions := List.replicate 1000 ⟨1, "", "Income", 0, true⟩ }

/-- A ledger where Food (category 4) has limit 100 and 90 already spent. -/
def exceededTracker : BudgetTracker :=
  { init_tracker with
      categories :=
        [⟨"Salary", 0, 0⟩, ⟨"Freelance", 0, 0⟩, ⟨"Investments", 0, 0⟩, ⟨"Food", 100, 90⟩,
         ⟨"Transport", 0, 0⟩, ⟨"Utilities", 0, 0⟩, ⟨"Rent", 0, 0⟩,
         ⟨"Entertainment", 0, 0⟩] }

end Budget

namespace Budget

/-- C7: after initialization the ledger has exactly the eight default
categories in order with zero limit and zero spent, no transactions, the
single initialization notification, and zero totals. -/
theorem initialize_state :
    init_tracker.categories =
      [⟨"Salary", 0, 0⟩, ⟨"Freelance", 0, 0⟩, ⟨"Investments", 0, 0⟩, ⟨"Food", 0, 0⟩,
       ⟨"Transport", 0, 0⟩, ⟨"Utilities", 0, 0⟩, ⟨"Rent", 0, 0⟩, ⟨"Entertainment", 0, 0⟩] ∧
    init_tracker.categories.length = 8 ∧
    init_tracker.transactions = [] ∧
    init_tracker.notifications.map Notification.message =
      ["Tracker initialized with default categories."] ∧
    init_tracker.notifications.length = 1 ∧
    init_tracker.total_income = 0 ∧
    init_tracker.total_expenses = 0 :=
  ⟨rfl, rfl, rfl, rfl, rfl, rfl, rfl⟩

/-- C9: recording an expense never touches the notification log, whatever
the state and inputs (the over-budget warning is printed, not stored). -/
theorem recordExpense_preserves_notifications (s : BudgetTracker) (amount : ℚ)
    (choice : Int) (desc : String) (now : Nat) :
    (add_expense s amount choice desc now).1.notifications = s.notifications := by
  unfold add_expense
  split_ifs <;> rfl

/-- C10: a successful income recording appends exactly one income
transaction and adds the amount to `total_income`; expenses total,
categories and notifications are untouched. -/
theorem recordIncome_success_frame (s : BudgetTracker) (amount : ℚ) (desc : String)
    (now : Nat) (hcap : s.transactions.length < MAX_TRANSACTIONS) :
    (add_income s amount desc now).1.transactions
        = s.transactions ++ [⟨amount, desc, "Income", now, true⟩] ∧
    (add_income s amount desc now).1.total_income = s.total_income + amount ∧
    (add_income s amount desc now).1.total_expenses = s.total_expenses ∧
    (add_income s amount desc now).1.categories = s.categories ∧
    (add_income s amount desc now).1.notifications = s.notifications ∧
    (add_income s amount desc now).2 = none := by
  have h : ¬ (s.transactions.length ≥ MAX_TRANSACTIONS) := by omega
  simp [add_income, h]

/-- Witness for C10 at the freshly initialized ledger. -/
theorem recordIncome_success_frame_witness :
    init_tracker.transactions.length < MAX_TRANSACTIONS ∧
    ((add_income init_tracker 50 "bonus" 0).1.transactions
        = init_tracker.transactions ++ [⟨50, "bonus", "Income", 0, true⟩] ∧
     (add_income init_tracker 50 "bonus" 0).1.total_income
        = init_tracker.total_income + 50 ∧
     (add_income init_tracker 50 "bonus" 0).1.total_expenses
        = init_tracker.total_expenses ∧
     (add_income init_tracker 50 "bonus" 0).1.categories = init_tracker.categories ∧
     (add_income init_tracker 50 "bonus" 0).1.notifications
        = init_tracker.notifications ∧
     (add_income init_tracker 50 "bonus" 0).2 = none) :=
  ⟨by decide, recordIncome_success_frame init_tracker 50 "bonus" 0 (by decide)⟩

/-- C6: with the transaction store at its capacity of 1000, both recording
operations report `CapacityExceeded` and return the state unchanged. -/
theorem capacityExceeded_no_mutation (s : BudgetTracker) (a₁ : ℚ) (d₁ : String)
    (n₁ : Nat) (a₂ : ℚ) (choice : Int) (d₂ : String) (n₂ : Nat)
    (h : s.transactions.length = 1000) :
    add_income s a₁ d₁ n₁ = (s, some RecordError.CapacityExceeded) ∧
    add_expense s a₂ choice d₂ n₂ = (s, Except.error RecordError.CapacityExceeded) := by
  have h1 : s.transactions.length ≥ MAX_TRANSACTIONS := by
    simp [MAX_TRANSACTIONS, h]
  exact ⟨by simp [add_income, h1], by simp [add_expense, h1]⟩

/-- Witness for C6 at a ledger holding 1000 transactions. -/
theorem capacityExceeded_no_mutation_witness :
    fullTracker.transactions.length = 1000 ∧
    (add_income fullTracker 5 "x" 0
        = (fullTracker, some RecordError.CapacityExceeded) ∧
     add_expense fullTracker 5 1 "x" 0
        = (fullTracker, Except.error RecordError.CapacityExceeded)) :=
  ⟨by unfold fullTracker; simp only [List.length_replicate],
   capacityExceeded_no_mutation _ 5 "x" 0 5 1 "x" 0
    (by unfold fullTracker; simp only [List.length_replicate])⟩

/-- C3: an out-of-range category choice makes `add_expense` report
`InvalidCategory` and return the whole ledger unchanged (given the
transaction store was not already full, which is checked first). -/
theorem recordExpense_invalidCategory (s : BudgetTracker) (amount : ℚ)
    (choice : Int) (desc : String) (now : Nat)
    (hcap : s.transactions.length < MAX_TRANSACTIONS)
    (hbad : choice < 1 ∨ choice > (s.categories.length : Int)) :
    add_expense s amount choice desc now
      = (s, Except.error RecordError.InvalidCategory) := by
  have h1 : ¬ (s.transactions.length ≥ MAX_TRANSACTIONS) := by omega
  unfold add_expense
  rw [if_neg h1, if_pos hbad]

/-- Witness for C3: choice 0 on the freshly initialized ledger. -/
theorem recordExpense_invalidCategory_witness :
    (init_tracker.transactions.length < MAX_TRANSACTIONS ∧
      ((0 : Int) < 1 ∨ (0 : Int) > (init_tracker.categories.length : Int))) ∧
    add_expense init_tracker 30 0 "test" 0
      = (init_tracker, Except.error RecordError.InvalidCategory) :=
  ⟨⟨by decide, by decide⟩,
   recordExpense_invalidCategory init_tracker 30 0 "test" 0 (by decide) (by decide)⟩

/-- C2: a valid expense appends exactly one transaction carrying the selected
category's name with `is_income = false`, adds the amount to
`total_expenses`, and adds the same amount to that category's
`current_spent`. -/
theorem recordExpense_success (s : BudgetTracker) (amount : ℚ) (choice : Int)
    (desc : String) (now : Nat)
    (hcap : s.transactions.length < MAX_TRANSACTIONS)
    (hlo : 1 ≤ choice) (hhi : choice ≤ (s.categories.length : Int)) :
    (add_expense s amount choice desc now).1.transactions
      = s.transactions ++
        [⟨amount, desc, (s.categories.getD (choice - 1).toNat padCategory).name,
          now, false⟩] ∧
    (add_expense s amount choice desc now).1.total_expenses
      = s.total_expenses + amount ∧
    ((add_expense s amount choice desc now).1.categories.getD (choice - 1).toNat
        padCategory).current_spent
      = (s.categories.getD (choice - 1).toNat padCategory).current_spent + amount ∧
    (∃ b, (add_expense s amount choice desc now).2 = Except.ok b) := by
  have h1 : ¬ (s.transactions.length ≥ MAX_TRANSACTIONS) := by omega
  have h2 : ¬ (choice < 1 ∨ choice > (s.categories.length : Int)) := by omega
  have hidx : (choice - 1).toNat < s.categories.length := by omega
  unfold add_expense
  rw [if_neg h1, if_neg h2]
  refine ⟨rfl, rfl, ?_, ⟨_, rfl⟩⟩
  rw [List.getD_eq_getElem _ _ (by rw [List.length_set]; exact hidx),
      List.getElem_set_self]
  rfl

/-- Witness for C2: expense of 30 against category 1 (Salary) on the fresh
ledger. -/
theorem recordExpense_success_witness :
    (init_tracker.transactions.length < MAX_TRANSACTIONS ∧
      (1 : Int) ≤ 1 ∧ (1 : Int) ≤ (init_tracker.categories.length : Int)) ∧
    ((add_expense init_tracker 30 1 "test" 0).1.transactions
      = init_tracker.transactions ++
        [⟨30, "test", (init_tracker.categories.getD ((1 : Int) - 1).toNat
            padCategory).name, 0, false⟩] ∧
     (add_expense init_tracker 30 1 "test" 0).1.total_expenses
      = init_tracker.total_expenses + 30 ∧
     ((add_expense init_tracker 30 1 "test" 0).1.categories.getD
          ((1 : Int) - 1).toNat padCategory).current_spent
      = (init_tracker.categories.getD ((1 : Int) - 1).toNat
          padCategory).current_spent + 30 ∧
     (∃ b, (add_expense init_tracker 30 1 "test" 0).2 = Except.ok b)) :=
  ⟨⟨by decide, by decide, by decide⟩,
   recordExpense_success init_tracker 30 1 "test" 0 (by decide) (by decide) (by decide)⟩

/-- C4: on a successful expense the over-budget signal fires exactly when the
selected category has a positive limit that is exceeded by its incremented
`current_spent`. -/
theorem recordExpense_budget_exceeded (s : BudgetTracker) (amount : ℚ)
    (choice : Int) (desc : String) (now : Nat)
    (hcap : s.transactions.length < MAX_TRANSACTIONS)
    (hlo : 1 ≤ choice) (hhi : choice ≤ (s.categories.length : Int)) :
    ((add_expense s amount choice desc now).2 = Except.ok true ↔
      0 < (s.categories.getD (choice - 1).toNat padCategory).budget_limit ∧
      (s.categories.getD (choice - 1).toNat padCategory).budget_limit
        < (s.categories.getD (choice - 1).toNat padCategory).current_spent + amount) := by
  have h1 : ¬ (s.transactions.length ≥ MAX_TRANSACTIONS) := by omega
  have h2 : ¬ (choice < 1 ∨ choice > (s.categories.length : Int)) := by omega
  unfold add_expense
  rw [if_neg h1, if_neg h2]
  simp only [Except.ok.injEq, decide_eq_true_iff]
  exact Iff.rfl

/-- Witness for C4: an expense of 20 against Food with limit 100 and spent 90
signals the over-budget warning and leaves `current_spent = 110`. -/
theorem recordExpense_budget_exceeded_witness :
    (exceededTracker.transactions.length < MAX_TRANSACTIONS ∧
      (1 : Int) ≤ 4 ∧ (4 : Int) ≤ (exceededTracker.categories.length : Int)) ∧
    (add_expense exceededTracker 20 4 "x" 0).2 = Except.ok true ∧
    (add_expense exceededTracker 20 4 "x" 0).1.categories.getD 3 padCategory
      = ⟨"Food", 100, 110⟩ :=
  ⟨⟨by decide, by decide, by decide⟩,
   (recordExpense_budget_exceeded exceededTracker 20 4 "x" 0 (by decide) (by decide)
      (by decide)).mpr
    (by
      have h : exceededTracker.categories.getD ((4 : Int) - 1).toNat padCategory
          = ⟨"Food", 100, 90⟩ := rfl
      rw [h]
      norm_num),
   by
    show (⟨"Food", 100, (90 : ℚ) + 20⟩ : Category) = ⟨"Food", 100, 110⟩
    norm_num⟩

set_option maxRecDepth 8000

/-- C5: pushing onto a full notification log evicts the oldest entry, keeps
the rest in order, appends the new unread entry, and keeps the count at the
capacity of 50; concretely, 51 pushes on a fresh ledger leave exactly 50
entries and the initialization message has been evicted. -/
theorem pushNotification_ring :
    (∀ (s : BudgetTracker) (msg : String) (now : Nat),
        s.notifications.length = MAX_NOTIFICATIONS →
        (add_notification s msg now).notifications
          = s.notifications.drop 1 ++ [⟨msg.take 99, now, false⟩] ∧
        (add_notification s msg now).notifications.length = MAX_NOTIFICATIONS) ∧
    (run (List.replicate 51 (Op.notify "overbudget" 0))).notifications.length = 50 ∧
    "Tracker initialized with default categories."
      ∉ (run (List.replicate 51 (Op.notify "overbudget" 0))).notifications.map
          Notification.message := by
  refine ⟨?_, by decide, by decide⟩
  intro s msg now h
  have hge : s.notifications.length ≥ MAX_NOTIFICATIONS := le_of_eq h.symm
  have h50 : s.notifications.length = 50 := h
  have heq : (add_notification s msg now).notifications
      = s.notifications.drop 1 ++ [⟨msg.take 99, now, false⟩] := by
    simp [add_notification, hge]
  refine ⟨heq, ?_⟩
  rw [heq]
  simp only [List.length_append, List.length_drop, List.length_singleton, h50,
    MAX_NOTIFICATIONS]

/-- Witness for C5 at a concretely full log (after 49 pushes on the fresh
ledger the log holds exactly 50 entries). -/
theorem pushNotification_ring_witness :
    (run (List.replicate 49 (Op.notify "x" 0))).notifications.length
      = MAX_NOTIFICATIONS ∧
    (add_notification (run (List.replicate 49 (Op.notify "x" 0))) "y" 0).notifications
      = (run (List.replicate 49 (Op.notify "x" 0))).notifications.drop 1
        ++ [⟨"y".take 99, 0, false⟩] :=
  ⟨by decide, (pushNotification_ring.1 _ "y" 0 (by decide)).1⟩

/-- Unfolding lemma: the spent sum of a cons. -/
theorem spentSum_cons (c : Category) (cs : List Category) :
    spentSum (c :: cs) = c.current_spent + spentSum cs := by
  simp [spentSum]

/-- Replacing the category at an in-range index changes the spent sum by the
difference of the `current_spent` fields. -/
theorem spentSum_set (cs : List Category) (idx : Nat) (newCat : Category)
    (h : idx < cs.length) :
    spentSum (cs.set idx newCat)
      = spentSum cs - cs[idx].current_spent + newCat.current_spent := by
  induction cs generalizing idx with
  | nil => simp at h
  | cons c cs ih =>
    cases idx with
    | zero =>
      simp only [List.set_cons_zero, spentSum_cons, List.getElem_cons_zero]
      ring
    | succ i =>
      have h2 : i < cs.length := by simpa using h
      simp only [List.set_cons_succ, spentSum_cons, List.getElem_cons_succ, ih i h2]
      ring

/-- Overwriting budget limits never changes the spent sum. -/
theorem spentSum_setLimits (cs : List Category) (ls : List ℚ) :
    spentSum (setLimits cs ls) = spentSum cs := by
  induction cs generalizing ls with
  | nil => cases ls <;> rfl
  | cons c cs ih =>
    cases ls with
    | nil => rfl
    | cons l ls => simp only [setLimits, spentSum_cons, ih]

/-- Appending one transaction adds its amount to the income sum exactly when
it is an income transaction. -/
theorem incomeSum_append_one (ts : List Transaction) (t : Transaction) :
    incomeSum (ts ++ [t]) = incomeSum ts + (if t.is_income then t.amount else 0) := by
  by_cases h : t.is_income <;>
    simp [incomeSum, List.filter_append, h]

/-- Appending one transaction adds its amount to the expense sum exactly when
it is an expense transaction. -/
theorem expenseSum_append_one (ts : List Transaction) (t : Transaction) :
    expenseSum (ts ++ [t]) = expenseSum ts + (if t.is_income then 0 else t.amount) := by
  by_cases h : t.is_income <;>
    simp [expenseSum, List.filter_append, h]

/-- Every public operation preserves the totals bookkeeping invariant. -/
theorem totalsInv_applyOp (s : BudgetTracker) (op : Op) (h : TotalsInv s) :
    TotalsInv (applyOp s op) := by
  obtain ⟨h1, h2, h3⟩ := h
  cases op with
  | income a d n =>
    show TotalsInv (add_income s a d n).1
    unfold add_income
    split_ifs with hc
    · exact ⟨h1, h2, h3⟩
    · refine ⟨?_, ?_, ?_⟩
      · show s.total_income + a = incomeSum (s.transactions ++ [⟨a, d, "Income", n, true⟩])
        rw [incomeSum_append_one, h1]
        simp
      · show s.total_expenses = expenseSum (s.transactions ++ [⟨a, d, "Income", n, true⟩])
        rw [expenseSum_append_one, h2]
        simp
      · exact h3
  | expense a c d n =>
    show TotalsInv (add_expense s a c d n).1
    unfold add_expense
    split_ifs with hc hb
    · exact ⟨h1, h2, h3⟩
    · exact ⟨h1, h2, h3⟩
    · push_neg at hb
      have hidx : (c - 1).toNat < s.categories.length := by omega
      refine ⟨?_, ?_, ?_⟩
      · show s.total_income = incomeSum (s.transactions ++ [⟨a, d, _, n, false⟩])
        rw [incomeSum_append_one, h1]
        simp
      · show s.total_expenses + a = expenseSum (s.transactions ++ [⟨a, d, _, n, false⟩])
        rw [expenseSum_append_one, h2]
        simp
      · show spentSum (s.categories.set ((c - 1).toNat) _) = s.total_expenses + a
        rw [spentSum_set _ _ _ hidx]
        rw [show ((s.categories.getD (c - 1).toNat ⟨"", 0, 0⟩).current_spent)
              = (s.categories[(c - 1).toNat]).current_spent from by
            rw [List.getD_eq_getElem _ _ hidx]]
        rw [h3]
        ring
  | setBudget ls =>
    show TotalsInv (set_budget s ls)
    exact ⟨h1, h2, by
      show spentSum (setLimits s.categories ls) = s.total_expenses
      rw [spentSum_setLimits]
      exact h3⟩
  | notify m n =>
    show TotalsInv (add_notification s m n)
    exact ⟨h1, h2, h3⟩

/-- The freshly initialized ledger satisfies the totals invariant. -/
theorem totalsInv_init : TotalsInv init_tracker := by
  refine ⟨rfl, rfl, ?_⟩
  show spentSum (default_categories.map fun n => ⟨n, 0, 0⟩) = 0
  norm_num [spentSum, default_categories]

/-- The totals invariant is preserved along any operation sequence. -/
theorem totalsInv_foldl (ops : List Op) (s : BudgetTracker) (h : TotalsInv s) :
    TotalsInv (ops.foldl applyOp s) := by
  induction ops generalizing s with
  | nil => exact h
  | cons op ops ih => exact ih _ (totalsInv_applyOp s op h)

/-- C1: after any sequence of income/expense recordings from a fresh ledger,
`total_income` is the sum of the income transaction amounts, `total_expenses`
is the sum of the expense transaction amounts, and the categories together
have spent exactly `total_expenses`. -/
theorem run_totals_invariant (ops : List Op) (_hops : ∀ op ∈ ops, Op.isRecord op) :
    (run ops).total_income = incomeSum (run ops).transactions ∧
    (run ops).total_expenses = expenseSum (run ops).transactions ∧
    spentSum (run ops).categories = (run ops).total_expenses :=
  totalsInv_foldl ops init_tracker totalsInv_init

/-- Witness for C1 on the sequence income 50 then expense 30. -/
theorem run_totals_invariant_witness :
    (∀ op ∈ [Op.income 50 "bonus" 0, Op.expense 30 1 "t" 0], Op.isRecord op) ∧
    ((run [Op.income 50 "bonus" 0, Op.expense 30 1 "t" 0]).total_income
        = incomeSum (run [Op.income 50 "bonus" 0, Op.expense 30 1 "t" 0]).transactions ∧
     (run [Op.income 50 "bonus" 0, Op.expense 30 1 "t" 0]).total_expenses
        = expenseSum (run [Op.income 50 "bonus" 0, Op.expense 30 1 "t" 0]).transactions ∧
     spentSum (run [Op.income 50 "bonus" 0, Op.expense 30 1 "t" 0]).categories
        = (run [Op.income 50 "bonus" 0, Op.expense 30 1 "t" 0]).total_expenses) :=
  ⟨by intro op hop; fin_cases hop <;> trivial,
   run_totals_invariant _ (by intro op hop; fin_cases hop <;> trivial)⟩

/-- Overwriting limits with nonnegative values keeps every category
nonnegative. -/
theorem nonneg_setLimits (cs : List Category) (ls : List ℚ)
    (hcs : ∀ c ∈ cs, 0 ≤ c.current_spent ∧ 0 ≤ c.budget_limit)
    (hls : ∀ l ∈ ls, 0 ≤ l) :
    ∀ c ∈ setLimits cs ls, 0 ≤ c.current_spent ∧ 0 ≤ c.budget_limit := by
  induction cs generalizing ls with
  | nil => intro c hc; cases ls <;> simp [setLimits] at hc
  | cons c0 cs ih =>
    cases ls with
    | nil => exact hcs
    | cons l ls =>
      intro c hc
      simp only [setLimits, List.mem_cons] at hc
      rcases hc with rfl | hc
      · exact ⟨(hcs c0 (by simp)).1, hls l (by simp)⟩
      · exact ih ls (fun x hx => hcs x (by simp [hx])) (fun x hx => hls x (by simp [hx])) c hc

/-- Every public operation with valid (nonnegative) inputs preserves
per-category nonnegativity. -/
theorem nonnegInv_applyOp (s : BudgetTracker) (op : Op) (hv : op.validInputs)
    (h : NonnegInv s) : NonnegInv (applyOp s op) := by
  cases op with
  | income a d n =>
    show NonnegInv (add_income s a d n).1
    unfold add_income
    split_ifs with hc
    · exact h
    · exact h
  | expense a c d n =>
    show NonnegInv (add_expense s a c d n).1
    unfold add_expense
    split_ifs with hc hb
    · exact h
    · exact h
    · push_neg at hb
      have hidx : (c - 1).toNat < s.categories.length := by omega
      intro x hx
      rcases List.mem_or_eq_of_mem_set hx with hmem | rfl
      · exact h x hmem
      · have hcat : s.categories.getD (c - 1).toNat ⟨"", 0, 0⟩ ∈ s.categories := by
          rw [List.getD_eq_getElem _ _ hidx]
          exact List.getElem_mem hidx
        have h0 := h _ hcat
        have ha : (0 : ℚ) ≤ a := hv
        exact ⟨add_nonneg h0.1 ha, h0.2⟩
  | setBudget ls =>
    show NonnegInv (set_budget s ls)
    intro x hx
    exact nonneg_setLimits s.categories ls h hv x hx
  | notify m n =>
    show NonnegInv (add_notification s m n)
    exact h

/-- The freshly initialized ledger satisfies per-category nonnegativity. -/
theorem nonnegInv_init : NonnegInv init_tracker := by
  intro c hc
  norm_num [init_tracker, default_categories] at hc
  rcases hc with rfl | rfl | rfl | rfl | rfl | rfl | rfl | rfl <;> norm_num

/-- Per-category nonnegativity is preserved along any valid-input operation
sequence. -/
theorem nonnegInv_foldl (ops : List Op) (s : BudgetTracker)
    (hv : ∀ op ∈ ops, op.validInputs) (h : NonnegInv s) :
    NonnegInv (ops.foldl applyOp s) := by
  induction ops generalizing s with
  | nil => exact h
  | cons op ops ih =>
    exact ih _ (fun x hx => hv x (by simp [hx]))
      (nonnegInv_applyOp s op (hv op (by simp)) h)

/-- C8 (amended): in every state reachable from a fresh ledger by operations
whose expense amounts and supplied budget limits are nonnegative, every
category has `current_spent >= 0` and `budget_limit >= 0`. -/
theorem run_nonneg_invariant (ops : List Op)
    (hops : ∀ op ∈ ops, op.validInputs) :
    ∀ c ∈ (run ops).categories, 0 ≤ c.current_spent ∧ 0 ≤ c.budget_limit :=
  nonnegInv_foldl ops init_tracker hops nonnegInv_init

/-- C8 counterexample: the claim as stated fails, because `set_budget`
stores a caller-supplied negative limit unvalidated; after setting the first
category limit to -1 from the fresh ledger, a category has
`budget_limit < 0`. -/
theorem budget_nonneg_counterexample :
    ¬ (∀ c ∈ (run [Op.setBudget [-1, 0, 0, 0, 0, 0, 0, 0]]).categories,
        0 ≤ c.current_spent ∧ 0 ≤ c.budget_limit) := by
  norm_num [run, applyOp, set_budget, setLimits, init_tracker, default_categories]

/-- Witness for C8 (amended) on a sequence using all four operations. -/
theorem run_nonneg_invariant_witness :
    (∀ op ∈ [Op.income 50 "b" 0, Op.expense 30 4 "t" 0,
        Op.setBudget [0, 0, 0, 100, 0, 0, 0, 0], Op.notify "m" 0], Op.validInputs op) ∧
    ∀ c ∈ (run [Op.income 50 "b" 0, Op.expense 30 4 "t" 0,
        Op.setBudget [0, 0, 0, 100, 0, 0, 0, 0], Op.notify "m" 0]).categories,
      0 ≤ c.current_spent ∧ 0 ≤ c.budget_limit :=
  ⟨by intro op hop; fin_cases hop <;> norm_num [Op.validInputs],
   run_nonneg_invariant _ (by intro op hop; fin_cases hop <;> norm_num [Op.validInputs])⟩

end Budget
